import Mathlib

/-!
Verification development for the re-cinq/cloud-carbon emissions pipeline.

The Go source is embedded shallowly: `float64` values become `ℚ`, Go maps
become `String → Option _` lookups, fallible functions return
`Except String _`, and the third-party `gospline` cubic-spline evaluator
(an external library, not part of this repository) is abstracted as an
explicit function parameter `splineAt : List ℚ → List ℚ → ℚ → ℚ` standing
for `gospline.NewCubicSpline(x, y).At`.
-/

namespace CloudCarbon

/-! ## Dataset types (`github.com/re-cinq/emissions-data/pkg/types/v2`) -/

namespace data

/-- A control point of a wattage curve: `data.Wattage` with fields
`Percentage` (an integer utilisation percentage, cast to float by the
calculator) and `Wattage` (watts). -/
structure Wattage where
  Percentage : ℤ
  Wattage : ℚ
deriving DecidableEq, Repr

/-- A per-instance-kind entry of the external (precise-tier) dataset:
`data.Instance` restricted to the fields the calculator reads
(`PkgWatt`, `VCPU`, `EmbodiedHourlyGCO2e`). -/
structure Instance where
  PkgWatt : List Wattage
  VCPU : ℤ
  EmbodiedHourlyGCO2e : ℚ
deriving DecidableEq, Repr

end data

/-! ## Core value types (`pkg/types/v1`) -/

namespace v1

/-- Modelled from the spec: the metric kind tags (CPU/Memory/Storage/Network).
In Go `Metric.Name` is the string form of a `v1.ResourceType` constant and
`operationalEmissions` switches on it with a default branch; the closed set
plus a catch-all is modelled as an inductive. The `v1.ResourceType`
definition itself is repository code not present under `src/`. -/
inductive MetricName where
  | cpu
  | memory
  | storage
  | network
  | other (s : String)
deriving DecidableEq, Repr

/-- Modelled from the spec: the emission unit attached to a computed value;
the calculator always uses `v1.GCO2eqkWh`. -/
inductive EmissionUnit where
  | GCO2eqkWh
deriving DecidableEq, Repr

/-- Modelled from the spec: a computed emission value with its unit
(`v1.ResourceEmission`, constructed by `v1.NewResourceEmission`). -/
structure ResourceEmission where
  Value : ℚ
  Unit : EmissionUnit
deriving DecidableEq, Repr

/-- `v1.NewResourceEmission`: bundle a value with its unit. -/
def NewResourceEmission (v : ℚ) (u : EmissionUnit) : ResourceEmission :=
  { Value := v, Unit := u }

/-- Modelled from the spec: one utilisation sample (`v1.Metric`): kind,
usage percentage, unit amount (e.g. vCPU count) and the computed emission
value, initially absent. The `v1.Metric` struct definition is repository
code not present under `src/`; the calculator in `src/` reads exactly
these fields. -/
structure Metric where
  Name : MetricName
  Usage : ℚ
  UnitAmount : ℚ
  Emissions : Option ResourceEmission
deriving DecidableEq, Repr

/-- Modelled from the spec: a monitored cloud compute resource
(`v1.Instance`): identifier, provider, region, kind, its metrics and the
embodied-emission result. -/
structure Instance where
  Name : String
  Provider : String
  Region : String
  Kind : String
  Metrics : List Metric
  EmbodiedEmissions : Option ResourceEmission
deriving DecidableEq, Repr

/-- Modelled from the spec: `Metrics.Upsert` — at most one `Metric` per
kind; a new sample of an existing kind replaces the prior value in place
(last write wins), otherwise it is appended. The `Metrics` collection type
is repository code not present under `src/`. -/
def Upsert (ms : List Metric) (m : Metric) : List Metric :=
  if ms.any (fun x => x.Name = m.Name) then
    ms.map (fun x => if x.Name = m.Name then m else x)
  else
    ms ++ [m]

end v1

/-! ## Emission factors (`pkg/types/v1/factors`) -/

namespace factors

/-- Modelled from the spec: per-instance-kind embodied specs
(`factors.Embodied`): min/max watts, total embodied kWh·CO2e, vCPU count
and platform total vCPU count. The struct definition is repository code
not present under `src/`; `handleEvent` and `hourlyEmbodiedEmissions`
read exactly these fields. -/
structure Embodied where
  MinWatts : ℚ
  MaxWatts : ℚ
  TotalEmbodiedKiloWattCO2e : ℚ
  VCPU : ℚ
  TotalVCPU : ℚ
deriving DecidableEq, Repr

/-- Modelled from the spec: per-provider emission factors
(`factors.EmissionFactors`): average PUE, region → grid carbon intensity
(metric tons CO2e per kWh) and instance-kind → embodied specs. Maps are
modelled as `Option`-valued lookups. -/
structure EmissionFactors where
  AveragePUE : ℚ
  Coefficient : String → Option ℚ
  Embodied : String → Option factors.Embodied

end factors

/-! ## Calculator (`pkg/calculator`) -/

namespace calculator

/-- The type of the abstracted `gospline` evaluator:
`fun x y value => gospline.NewCubicSpline(x, y).At(value)`. -/
abbrev SplineFn := List ℚ → List ℚ → ℚ → ℚ

/-- The `parameters` struct of `pkg/calculator/handler.go`, resolved per
instance and per metric: grid intensity (grams/kWh), PUE, wattage curve,
the metric under calculation, dataset vCPU count and embodied-hourly
factor. -/
structure parameters where
  gridCO2e : ℚ
  pue : ℚ
  wattage : List data.Wattage
  metric : v1.Metric
  vCPU : ℚ
  embodiedFactor : ℚ
deriving DecidableEq, Repr

/-- `cubicSplineInterpolation` of `metrics_collected.go`: errors on an
empty curve, otherwise splits the curve into the percentage list `x` and
the wattage list `y`, evaluates the cubic spline at `value` and divides by
1000 to convert watts to kilowatts. -/
def cubicSplineInterpolation (splineAt : SplineFn) (wattage : List data.Wattage)
    (value : ℚ) : Except String ℚ :=
  match wattage with
  | [] => .error "error: cannot calculate CPU energy, no wattage found"
  | _ =>
    let x := wattage.map (fun w => (w.Percentage : ℚ))
    let y := wattage.map (fun w => w.Wattage)
    .ok (splineAt x y value / 1000)

/-- `cpu` of `metrics_collected.go`: pick the dataset vCPU count, falling
back to the metric's `UnitAmount` when it is zero and erroring when both
are zero; form vCPU-hours from the interval in minutes; interpolate the
wattage curve at the usage percentage; multiply out with PUE and grid
intensity. -/
def cpu (splineAt : SplineFn) (intervalMinutes : ℚ) (p : parameters) :
    Except String ℚ :=
  if p.vCPU = 0 ∧ p.metric.UnitAmount = 0 then
    .error "error vCPU set to 0"
  else
    let vCPU := if p.vCPU = 0 then p.metric.UnitAmount else p.vCPU
    let vCPUHours := intervalMinutes / 60 * vCPU
    match cubicSplineInterpolation splineAt p.wattage p.metric.Usage with
    | .error e => .error e
    | .ok usageCPUkw => .ok (usageCPUkw * vCPUHours * p.pue * p.gridCO2e)

/-- `operationalEmissions` of `metrics_collected.go`: dispatch on the
metric kind; only CPU is calculated, the other kinds return tagged
errors. -/
def operationalEmissions (splineAt : SplineFn) (intervalMinutes : ℚ)
    (p : parameters) : Except String ℚ :=
  match p.metric.Name with
  | .cpu => cpu splineAt intervalMinutes p
  | .memory => .error "error memory is not yet being calculated"
  | .storage => .error "error storage is not yet being calculated"
  | .network => .error "error networking is not yet being calculated"
  | .other n => .error ("error metric not supported: " ++ n)

/-- `embodiedEmissions` of `metrics_collected.go`: scale the hourly
embodied factor down to the measurement interval
(`hourlyEmbodied / 60 * interval.Minutes()`). -/
def embodiedEmissions (intervalMinutes : ℚ) (hourlyEmbodied : ℚ) : ℚ :=
  hourlyEmbodied / 60 * intervalMinutes

/-- The `serverLifespan` constant of `handler.go` (6 years). -/
def serverLifespan : ℚ := 6

/-- `hourlyEmbodiedEmissions` of `handler.go`: derive an hourly embodied
factor from the fallback specs
(`TE * ((1/24/365)/EL) * (RR/TR)`). -/
def hourlyEmbodiedEmissions (e : factors.Embodied) : ℚ :=
  e.TotalEmbodiedKiloWattCO2e * ((1 / 24 / 365) / serverLifespan)
    * (e.VCPU / e.TotalVCPU)

/-- Modelled from the spec: the payload of a bus event. `handleEvent`
performs the type assertion `e.Data.(v1.Instance)`; a payload of any other
type is the `other` case. -/
inductive EventData where
  | inst (i : v1.Instance)
  | other
deriving DecidableEq, Repr

/-- Modelled from the spec: a bus event envelope restricted to the payload
field `handleEvent` reads (`Handle` has already dispatched on the event
type). -/
structure Event where
  Data : EventData
deriving DecidableEq, Repr

/-- The observable outcome of `handleEvent`: either it logged an error and
returned early (no `EmissionsCalculated` event), or it called
`Bus.Publish` exactly once with the annotated instance. -/
inductive HandleOutcome where
  | dropped (logMsg : String)
  | published (i : v1.Instance)
deriving DecidableEq, Repr

/-- The `params := parameters{gridCO2e: ..., pue: ...}` literal of
`handleEvent`: the remaining fields start at their Go zero values (`nil`
metric modelled as a zero-valued metric; it is overwritten before use). -/
def initParams (gridCO2e pue : ℚ) : parameters :=
  { gridCO2e := gridCO2e
    pue := pue
    wattage := []
    metric := { Name := .other "", Usage := 0, UnitAmount := 0, Emissions := none }
    vCPU := 0
    embodiedFactor := 0 }

/-- The two-tier resolution of `handleEvent` (lines 130–146): if the
external dataset `awsInstances` has an entry for the kind, take its
wattage curve, vCPU count and embodied-hourly factor; otherwise build the
two-point min/max curve from the embodied specs and derive the factor
with `hourlyEmbodiedEmissions`. -/
def resolveParams (awsInstances : String → Option data.Instance) (kind : String)
    (specs : factors.Embodied) (p : parameters) : parameters :=
  match awsInstances kind with
  | some d =>
    { p with
      wattage := d.PkgWatt
      vCPU := (d.VCPU : ℚ)
      embodiedFactor := d.EmbodiedHourlyGCO2e }
  | none =>
    { p with
      wattage := [ { Percentage := 0, Wattage := specs.MinWatts },
                   { Percentage := 100, Wattage := specs.MaxWatts } ]
      embodiedFactor := hourlyEmbodiedEmissions specs }

/-- One iteration of the metrics loop of `handleEvent`: compute the
operational emissions for the metric; on error log and `continue` (the
collection is unchanged), on success attach the emission value and upsert
the updated metric. -/
def metricLoopStep (splineAt : SplineFn) (intervalMinutes : ℚ) (p : parameters)
    (acc : List v1.Metric) (m : v1.Metric) : List v1.Metric :=
  match operationalEmissions splineAt intervalMinutes { p with metric := m } with
  | .error _ => acc
  | .ok opEm =>
    v1.Upsert acc { m with Emissions := some (v1.NewResourceEmission opEm .GCO2eqkWh) }

/-- The metrics loop of `handleEvent`: iterate over the instance's
metrics, upserting each successfully calculated metric back into the
collection. -/
def runMetricsLoop (splineAt : SplineFn) (intervalMinutes : ℚ) (p : parameters)
    (metrics : List v1.Metric) : List v1.Metric :=
  metrics.foldl (metricLoopStep splineAt intervalMinutes p) metrics

/-- `handleEvent` of `handler.go`: check the payload type, fetch the
provider emission factors, look up the region coefficient (converting
tons → grams, `× 1000 × 1000`), look up the embodied specs for the kind,
resolve the per-kind parameters (precise tier or fallback tier), run the
metrics loop, attach the embodied emissions and publish the annotated
instance. Each early `return` after an error log is a `dropped` outcome
carrying the logged message. -/
def handleEvent (splineAt : SplineFn) (awsInstances : String → Option data.Instance)
    (getFactors : String → Except String factors.EmissionFactors)
    (intervalMinutes : ℚ) (e : Event) : HandleOutcome :=
  match e.Data with
  | .other => .dropped "EmissionCalculator got an unknown event"
  | .inst i =>
    match getFactors i.Provider with
    | .error _ => .dropped "error getting emission factors"
    | .ok emFactors =>
      match emFactors.Coefficient i.Region with
      | none => .dropped "region does not exist in factors for provider"
      | some gridCO2eTons =>
        let gridCO2e := gridCO2eTons * (1000 * 1000)
        match emFactors.Embodied i.Kind with
        | none => .dropped "failed finding instance in factor data"
        | some specs =>
          let params :=
            resolveParams awsInstances i.Kind specs
              (initParams gridCO2e emFactors.AveragePUE)
          let metrics := runMetricsLoop splineAt intervalMinutes params i.Metrics
          .published
            { i with
              Metrics := metrics
              EmbodiedEmissions :=
                some (v1.NewResourceEmission
                  (embodiedEmissions intervalMinutes params.embodiedFactor)
                  .GCO2eqkWh) }

end calculator

/-! ## Scheduler (`pkg/providers/gcp`, the ticker + cancellation loop)

`Schedule` spawns a goroutine looping on
`select { case <-done: return; case <-ticker.C: process() }` and `Cancel`
sends `done <- true` on the **unbuffered** channel `done`. The
interleaving of that goroutine with a caller of `Cancel` is embedded as a
small transition system: an unbuffered send can only complete by
rendezvous with a receiver that is parked at the `select`. -/

namespace gcp

/-- Position of the scheduler's loop goroutine: parked at the `select`,
inside a `process()` collection pass, or returned after receiving `done`. -/
inductive LoopState where
  | atSelect
  | inProcess
  | exited
deriving DecidableEq, Repr

/-- State of a caller of `Cancel`: not yet called, blocked in the
unbuffered send `done <- true`, or past the send (the signal was
received). -/
inductive CancelState where
  | idle
  | sendPending
  | delivered
deriving DecidableEq, Repr

/-- Joint state of the loop goroutine and the `Cancel` caller. -/
structure SchedState where
  loop : LoopState
  cancel : CancelState
deriving DecidableEq, Repr

/-- The interleaving steps: a ticker tick fires and the loop enters
`process()`; `process()` returns to the `select`; `Cancel` is called and
starts the unbuffered send; the send rendezvouses with the `select` —
which requires the loop to be parked at the `select`. -/
def schedStep (s : SchedState) : List SchedState :=
  (if s.loop = .atSelect then [{ s with loop := .inProcess }] else []) ++
  (if s.loop = .inProcess then [{ s with loop := .atSelect }] else []) ++
  (if s.cancel = .idle then [{ s with cancel := .sendPending }] else []) ++
  (if s.loop = .atSelect ∧ s.cancel = .sendPending then
    [{ loop := .exited, cancel := .delivered }] else [])

end gcp

/-! ## Concrete fixtures used to instantiate the theorems -/

namespace calculator

-- A concrete stand-in for the external spline evaluator: returns the query
-- point itself.
def splineProbe : SplineFn := fun _ _ v => v

-- A two-point wattage curve [(0%, 10 W), (100%, 100 W)].
def curve2 : List data.Wattage :=
  [{ Percentage := 0, Wattage := 10 }, { Percentage := 100, Wattage := 100 }]

-- A CPU metric at 50% usage with 2 vCPUs reported by the query.
def mCPU : v1.Metric := { Name := .cpu, Usage := 50, UnitAmount := 2, Emissions := none }

-- A memory metric (unsupported by the calculator).
def mMem : v1.Metric := { Name := .memory, Usage := 30, UnitAmount := 0, Emissions := none }

-- Fully resolved CPU parameters.
def pCPUFix : parameters :=
  { gridCO2e := 100, pue := 6 / 5, wattage := curve2, metric := mCPU,
    vCPU := 4, embodiedFactor := 0 }

-- Same parameters with an empty wattage curve.
def pEmptyCurve : parameters := { pCPUFix with wattage := [] }

-- Fallback embodied specs.
def specsFix : factors.Embodied :=
  { MinWatts := 1, MaxWatts := 5, TotalEmbodiedKiloWattCO2e := 1000,
    VCPU := 4, TotalVCPU := 64 }

-- A precise-tier dataset entry.
def dInstFix : data.Instance :=
  { PkgWatt := curve2, VCPU := 8, EmbodiedHourlyGCO2e := 3 / 100 }

-- A dataset with no per-kind entries / with an entry for every kind.
def awsNone : String → Option data.Instance := fun _ => none
def awsFix : String → Option data.Instance := fun _ => some dInstFix

-- An instance holding one (unsupported) memory metric.
def instMem : v1.Instance :=
  { Name := "i-1", Provider := "gcp", Region := "eu", Kind := "e2",
    Metrics := [mMem], EmbodiedEmissions := none }

-- Emission factors that resolve the fixture region and kind.
def factorsFix : factors.EmissionFactors :=
  { AveragePUE := 6 / 5
    Coefficient := fun r => if r = "eu" then some (1 / 10000) else none
    Embodied := fun k => if k = "e2" then some specsFix else none }

-- Emission factors with no region coefficients at all.
def factorsNoRegion : factors.EmissionFactors :=
  { AveragePUE := 6 / 5, Coefficient := fun _ => none, Embodied := fun _ => none }

def getFactorsFix : String → Except String factors.EmissionFactors :=
  fun _ => .ok factorsFix

def getFactorsNoRegion : String → Except String factors.EmissionFactors :=
  fun _ => .ok factorsNoRegion

-- A MetricsCollected event carrying the fixture instance.
def eventMem : Event := { Data := .inst instMem }

end calculator

/-! ## Helper lemmas -/

namespace calculator

/-- On a nonempty curve, `cubicSplineInterpolation` succeeds with the
spline value at the usage point divided by 1000. -/
theorem cubicSpline_ok (s : SplineFn) (w : List data.Wattage) (v : ℚ)
    (hw : w ≠ []) :
    cubicSplineInterpolation s w v =
      .ok (s (w.map fun x => (x.Percentage : ℚ)) (w.map fun x => x.Wattage) v / 1000) := by
  cases w with
  | nil => exact absurd rfl hw
  | cons a t => rfl

/-- On resolved parameters (not both vCPU sources zero, nonempty curve),
`cpu` succeeds with the spline-kilowatt value times vCPU-hours times PUE
times grid intensity, where the vCPU count is the dataset one unless it is
zero, in which case it is the metric's unit amount. -/
theorem cpu_ok_of_resolved (s : SplineFn) (iv : ℚ) (p : parameters)
    (hv : ¬(p.vCPU = 0 ∧ p.metric.UnitAmount = 0)) (hw : p.wattage ≠ []) :
    cpu s iv p =
      .ok (s (p.wattage.map fun x => (x.Percentage : ℚ)) (p.wattage.map fun x => x.Wattage)
            p.metric.Usage / 1000
          * (iv / 60 * (if p.vCPU = 0 then p.metric.UnitAmount else p.vCPU))
          * p.pue * p.gridCO2e) := by
  unfold cpu
  rw [if_neg hv, cubicSpline_ok s p.wattage p.metric.Usage hw]

/-- With both vCPU sources zero, `cpu` fails with the vCPU error. -/
theorem cpu_error_of_zero_vcpu (s : SplineFn) (iv : ℚ) (p : parameters)
    (h0 : p.vCPU = 0) (h1 : p.metric.UnitAmount = 0) :
    cpu s iv p = .error "error vCPU set to 0" := by
  unfold cpu
  rw [if_pos ⟨h0, h1⟩]

/-- If the operational-emission computation fails on every metric of the
list, the metrics loop leaves the accumulator untouched. -/
theorem foldl_all_error (s : SplineFn) (iv : ℚ) (p : parameters)
    (l acc : List v1.Metric)
    (h : ∀ m ∈ l, ∃ e, operationalEmissions s iv { p with metric := m } = .error e) :
    List.foldl (metricLoopStep s iv p) acc l = acc := by
  induction l generalizing acc with
  | nil => rfl
  | cons m t ih =>
    obtain ⟨e, he⟩ := h m (List.mem_cons_self m t)
    have hstep : metricLoopStep s iv p acc m = acc := by
      unfold metricLoopStep
      rw [he]
    rw [List.foldl_cons, hstep]
    exact ih _ (fun x hx => h x (List.mem_cons_of_mem _ hx))

end calculator

/-! ## Claim theorems -/

namespace calculator

/-- C1: for every CPU metric with resolved parameters (a resolvable vCPU
count and a nonempty wattage curve), the operational emission equals the
cubic-spline interpolation of the wattage curve at the usage percentage
divided by 1000 (watts → kilowatts), times vCPU-hours
(`intervalMinutes / 60 × vCPU`), times PUE, times grid intensity. -/
theorem cpu_operational_formula (s : SplineFn) (iv : ℚ) (p : parameters)
    (hv : ¬(p.vCPU = 0 ∧ p.metric.UnitAmount = 0)) (hw : p.wattage ≠ []) :
    cpu s iv p =
      .ok (s (p.wattage.map fun x => (x.Percentage : ℚ)) (p.wattage.map fun x => x.Wattage)
            p.metric.Usage / 1000
          * (iv / 60 * (if p.vCPU = 0 then p.metric.UnitAmount else p.vCPU))
          * p.pue * p.gridCO2e) :=
  cpu_ok_of_resolved s iv p hv hw

/-- C1 witness: the formula instantiated on the CPU fixture. -/
theorem cpu_operational_formula_witness :
    (¬(pCPUFix.vCPU = 0 ∧ pCPUFix.metric.UnitAmount = 0) ∧ pCPUFix.wattage ≠ []) ∧
    cpu splineProbe 5 pCPUFix =
      .ok (splineProbe (pCPUFix.wattage.map fun x => (x.Percentage : ℚ))
            (pCPUFix.wattage.map fun x => x.Wattage) pCPUFix.metric.Usage / 1000
          * (5 / 60 * (if pCPUFix.vCPU = 0 then pCPUFix.metric.UnitAmount else pCPUFix.vCPU))
          * pCPUFix.pue * pCPUFix.gridCO2e) :=
  ⟨⟨by decide, by decide⟩,
    cpu_operational_formula splineProbe 5 pCPUFix (by decide) (by decide)⟩

/-- C3: when the external per-kind dataset has no entry for the kind, the
embodied-hourly factor resolved by the handler is
`totalEmbodiedKWhCO2e × ((1/24/365) / serverLifespan) × (vCPU / totalVCPU)`,
and the server lifespan constant is 6. -/
theorem fallback_embodied_factor_formula (aws : String → Option data.Instance)
    (kind : String) (specs : factors.Embodied) (p : parameters)
    (h : aws kind = none) :
    (resolveParams aws kind specs p).embodiedFactor =
      specs.TotalEmbodiedKiloWattCO2e * ((1 / 24 / 365) / serverLifespan)
        * (specs.VCPU / specs.TotalVCPU)
    ∧ serverLifespan = 6 := by
  constructor
  · unfold resolveParams
    rw [h]
    rfl
  · rfl

/-- C3 witness: the fallback factor on the fixture specs. -/
theorem fallback_embodied_factor_formula_witness :
    awsNone "e2" = none ∧
    ((resolveParams awsNone "e2" specsFix pCPUFix).embodiedFactor =
        specsFix.TotalEmbodiedKiloWattCO2e * ((1 / 24 / 365) / serverLifespan)
          * (specsFix.VCPU / specsFix.TotalVCPU)
      ∧ serverLifespan = 6) :=
  ⟨rfl, fallback_embodied_factor_formula awsNone "e2" specsFix pCPUFix rfl⟩

/-- C4: when the loaded external dataset has a per-kind entry, the handler
takes that entry's wattage curve, vCPU count and embodied-hourly factor
directly; the two-point fallback curve and the derived factor are used
exactly when the entry is absent. -/
theorem resolveParams_tier_selection (aws : String → Option data.Instance)
    (kind : String) (specs : factors.Embodied) (p : parameters) :
    (∀ d, aws kind = some d →
        resolveParams aws kind specs p =
          { p with wattage := d.PkgWatt, vCPU := (d.VCPU : ℚ),
                   embodiedFactor := d.EmbodiedHourlyGCO2e }) ∧
    (aws kind = none →
        resolveParams aws kind specs p =
          { p with
            wattage := [ { Percentage := 0, Wattage := specs.MinWatts },
                         { Percentage := 100, Wattage := specs.MaxWatts } ]
            embodiedFactor := hourlyEmbodiedEmissions specs }) := by
  constructor
  · intro d hd
    unfold resolveParams
    rw [hd]
  · intro h
    unfold resolveParams
    rw [h]

/-- C4 witness: the precise tier selected on a dataset that has the
fixture kind. -/
theorem resolveParams_tier_selection_witness :
    awsFix "e2" = some dInstFix ∧
    resolveParams awsFix "e2" specsFix pCPUFix =
      { pCPUFix with wattage := dInstFix.PkgWatt, vCPU := (dInstFix.VCPU : ℚ),
                     embodiedFactor := dInstFix.EmbodiedHourlyGCO2e } :=
  ⟨rfl, (resolveParams_tier_selection awsFix "e2" specsFix pCPUFix).1 dInstFix rfl⟩

/-- C5: `cubicSplineInterpolation` returns an error exactly when the
wattage curve has zero control points, and succeeds on every curve with at
least one control point. -/
theorem cubicSpline_error_iff_empty (s : SplineFn) (w : List data.Wattage) (v : ℚ) :
    ((∃ e, cubicSplineInterpolation s w v = .error e) ↔ w = []) ∧
    (w ≠ [] → ∃ r, cubicSplineInterpolation s w v = .ok r) := by
  constructor
  · constructor
    · rintro ⟨e, he⟩
      cases w with
      | nil => rfl
      | cons a t => exact absurd (cubicSpline_ok s (a :: t) v (by simp) ▸ he) (by simp)
    · rintro rfl
      exact ⟨_, rfl⟩
  · intro hw
    exact ⟨_, cubicSpline_ok s w v hw⟩

/-- C5 witness: success on the nonempty fixture curve. -/
theorem cubicSpline_error_iff_empty_witness :
    curve2 ≠ [] ∧ ∃ r, cubicSplineInterpolation splineProbe curve2 50 = .ok r :=
  ⟨by decide, (cubicSpline_error_iff_empty splineProbe curve2 50).2 (by decide)⟩

/-- C8: embodied emissions are linear in the interval:
`embodiedEmissions (k·interval) h = k · embodiedEmissions interval h` for
positive `k`. -/
theorem embodiedEmissions_linear (iv hourly k : ℚ) (hk : 0 < k) :
    embodiedEmissions (k * iv) hourly = k * embodiedEmissions iv hourly := by
  unfold embodiedEmissions
  ring

/-- C8 witness: linearity at interval 5 minutes, factor 7, scalar 2. -/
theorem embodiedEmissions_linear_witness :
    0 < (2 : ℚ) ∧ embodiedEmissions (2 * 5) 7 = 2 * embodiedEmissions 5 7 :=
  ⟨by decide, embodiedEmissions_linear 5 7 2 (by decide)⟩

/-- C6 counterexample: `cpu` can fail even though the two vCPU sources are
not both zero — an empty wattage curve also produces an error, so "returns
an error exactly when both are zero" is false as stated. -/
theorem cpu_error_despite_nonzero_vcpu :
    ¬(pEmptyCurve.vCPU = 0 ∧ pEmptyCurve.metric.UnitAmount = 0) ∧
    cpu splineProbe 5 pEmptyCurve =
      .error "error: cannot calculate CPU energy, no wattage found" := by
  constructor
  · decide
  · rfl

/-- C6 (amended): for every CPU metric whose wattage curve is nonempty,
`cpu` returns an error exactly when both the dataset vCPU count and the
metric's unit amount are zero; it selects the dataset count when that is
nonzero and the unit amount otherwise. (An empty wattage curve causes an
independent error even when a vCPU count is available.) -/
theorem cpu_vcpu_selection (s : SplineFn) (iv : ℚ) (p : parameters)
    (hw : p.wattage ≠ []) :
    ((∃ e, cpu s iv p = .error e) ↔ (p.vCPU = 0 ∧ p.metric.UnitAmount = 0)) ∧
    (p.vCPU ≠ 0 →
      cpu s iv p =
        .ok (s (p.wattage.map fun x => (x.Percentage : ℚ)) (p.wattage.map fun x => x.Wattage)
              p.metric.Usage / 1000
            * (iv / 60 * p.vCPU) * p.pue * p.gridCO2e)) ∧
    (p.vCPU = 0 → p.metric.UnitAmount ≠ 0 →
      cpu s iv p =
        .ok (s (p.wattage.map fun x => (x.Percentage : ℚ)) (p.wattage.map fun x => x.Wattage)
              p.metric.Usage / 1000
            * (iv / 60 * p.metric.UnitAmount) * p.pue * p.gridCO2e)) := by
  refine ⟨⟨?_, ?_⟩, ?_, ?_⟩
  · rintro ⟨e, he⟩
    by_contra hcon
    rw [cpu_ok_of_resolved s iv p hcon hw] at he
    exact Except.noConfusion he
  · rintro ⟨h0, h1⟩
    exact ⟨_, cpu_error_of_zero_vcpu s iv p h0 h1⟩
  · intro hv
    rw [cpu_ok_of_resolved s iv p (fun hc => hv hc.1) hw, if_neg hv]
  · intro h0 h1
    rw [cpu_ok_of_resolved s iv p (fun hc => h1 hc.2) hw, if_pos h0]

/-- C6 witness: on the CPU fixture (nonzero dataset vCPU, nonempty curve)
the dataset count is selected. -/
theorem cpu_vcpu_selection_witness :
    (pCPUFix.wattage ≠ [] ∧ pCPUFix.vCPU ≠ 0) ∧
    cpu splineProbe 5 pCPUFix =
      .ok (splineProbe (pCPUFix.wattage.map fun x => (x.Percentage : ℚ))
            (pCPUFix.wattage.map fun x => x.Wattage) pCPUFix.metric.Usage / 1000
          * (5 / 60 * pCPUFix.vCPU) * pCPUFix.pue * pCPUFix.gridCO2e) :=
  ⟨⟨by decide, by decide⟩,
    (cpu_vcpu_selection splineProbe 5 pCPUFix (by decide)).2.1 (by decide)⟩

/-- C7: for every Memory, Storage or Network metric,
`operationalEmissions` returns the tagged "not yet being calculated"
error, the metrics-loop step attaches no emission value (the collection is
unchanged), and the loop continues with the remaining metrics. -/
theorem unsupported_metric_error_and_skip (s : SplineFn) (iv : ℚ)
    (p : parameters) (m : v1.Metric)
    (h : m.Name = .memory ∨ m.Name = .storage ∨ m.Name = .network) :
    (operationalEmissions s iv { p with metric := m } =
        .error "error memory is not yet being calculated" ∨
      operationalEmissions s iv { p with metric := m } =
        .error "error storage is not yet being calculated" ∨
      operationalEmissions s iv { p with metric := m } =
        .error "error networking is not yet being calculated") ∧
    (∀ acc, metricLoopStep s iv p acc m = acc) ∧
    (∀ acc rest, List.foldl (metricLoopStep s iv p) acc (m :: rest) =
        List.foldl (metricLoopStep s iv p) acc rest) := by
  have hop :
      operationalEmissions s iv { p with metric := m } =
          .error "error memory is not yet being calculated" ∨
        operationalEmissions s iv { p with metric := m } =
          .error "error storage is not yet being calculated" ∨
        operationalEmissions s iv { p with metric := m } =
          .error "error networking is not yet being calculated" := by
    obtain ⟨nm, us, ua, em⟩ := m
    rcases h with h | h | h
    · cases h
      exact Or.inl rfl
    · cases h
      exact Or.inr (Or.inl rfl)
    · cases h
      exact Or.inr (Or.inr rfl)
  have hstep : ∀ acc, metricLoopStep s iv p acc m = acc := by
    intro acc
    unfold metricLoopStep
    rcases hop with h' | h' | h' <;> rw [h']
  exact ⟨hop, hstep, fun acc rest => by rw [List.foldl_cons, hstep]⟩

/-- C7 witness: the memory fixture metric is skipped by the loop step. -/
theorem unsupported_metric_error_and_skip_witness :
    (mMem.Name = .memory ∨ mMem.Name = .storage ∨ mMem.Name = .network) ∧
    (∀ acc, metricLoopStep splineProbe 5 pCPUFix acc mMem = acc) :=
  ⟨Or.inl rfl,
    (unsupported_metric_error_and_skip splineProbe 5 pCPUFix mMem (Or.inl rfl)).2.1⟩

/-- C2: when the instance's region is absent from the provider's
coefficient map, `handleEvent` logs the region error and returns — no
emission is computed and no `EmissionsCalculated` event is published. -/
theorem handleEvent_missing_region_drops (s : SplineFn)
    (aws : String → Option data.Instance)
    (gf : String → Except String factors.EmissionFactors) (iv : ℚ)
    (e : Event) (i : v1.Instance) (f : factors.EmissionFactors)
    (hdata : e.Data = .inst i) (hf : gf i.Provider = .ok f)
    (hr : f.Coefficient i.Region = none) :
    handleEvent s aws gf iv e =
      .dropped "region does not exist in factors for provider" := by
  unfold handleEvent
  rw [hdata]
  simp only [hf, hr]

/-- C2 witness: the fixture event dropped when no region resolves. -/
theorem handleEvent_missing_region_drops_witness :
    (eventMem.Data = .inst instMem ∧
      getFactorsNoRegion instMem.Provider = .ok factorsNoRegion ∧
      factorsNoRegion.Coefficient instMem.Region = none) ∧
    handleEvent splineProbe awsNone getFactorsNoRegion 5 eventMem =
      .dropped "region does not exist in factors for provider" :=
  ⟨⟨rfl, rfl, rfl⟩,
    handleEvent_missing_region_drops splineProbe awsNone getFactorsNoRegion 5
      eventMem instMem factorsNoRegion rfl rfl rfl⟩

/-- C10: when provider factors, region coefficient and embodied specs all
resolve, `handleEvent` publishes exactly one `EmissionsCalculated` event
carrying the instance with embodied emissions attached, even if every
per-metric operational computation fails — the failed metrics are left
unchanged, carrying no emission value. -/
theorem handleEvent_publishes_despite_metric_errors (s : SplineFn)
    (aws : String → Option data.Instance)
    (gf : String → Except String factors.EmissionFactors) (iv : ℚ)
    (e : Event) (i : v1.Instance) (f : factors.EmissionFactors)
    (tons : ℚ) (specs : factors.Embodied)
    (hdata : e.Data = .inst i) (hf : gf i.Provider = .ok f)
    (hr : f.Coefficient i.Region = some tons)
    (he : f.Embodied i.Kind = some specs)
    (hfail : ∀ m ∈ i.Metrics, ∃ err,
        operationalEmissions s iv
          { resolveParams aws i.Kind specs
              (initParams (tons * (1000 * 1000)) f.AveragePUE) with metric := m }
          = .error err) :
    handleEvent s aws gf iv e =
      .published
        { i with
          Metrics := i.Metrics
          EmbodiedEmissions :=
            some (v1.NewResourceEmission
              (embodiedEmissions iv
                (resolveParams aws i.Kind specs
                  (initParams (tons * (1000 * 1000)) f.AveragePUE)).embodiedFactor)
              .GCO2eqkWh) } := by
  have hloop :
      runMetricsLoop s iv
        (resolveParams aws i.Kind specs
          (initParams (tons * (1000 * 1000)) f.AveragePUE)) i.Metrics
        = i.Metrics := by
    unfold runMetricsLoop
    exact foldl_all_error s iv _ i.Metrics i.Metrics hfail
  unfold handleEvent
  rw [hdata]
  simp only [hf, hr, he, hloop]

/-- C10 witness: the fixture instance, whose only metric is an unsupported
memory metric, is still published with embodied emissions attached. -/
theorem handleEvent_publishes_despite_metric_errors_witness :
    (eventMem.Data = .inst instMem ∧
      getFactorsFix instMem.Provider = .ok factorsFix ∧
      factorsFix.Coefficient instMem.Region = some (1 / 10000) ∧
      factorsFix.Embodied instMem.Kind = some specsFix) ∧
    handleEvent splineProbe awsNone getFactorsFix 5 eventMem =
      .published
        { instMem with
          Metrics := instMem.Metrics
          EmbodiedEmissions :=
            some (v1.NewResourceEmission
              (embodiedEmissions 5
                (resolveParams awsNone instMem.Kind specsFix
                  (initParams ((1 / 10000) * (1000 * 1000)) factorsFix.AveragePUE)).embodiedFactor)
              .GCO2eqkWh) } :=
  ⟨⟨rfl, rfl, rfl, rfl⟩,
    handleEvent_publishes_despite_metric_errors splineProbe awsNone getFactorsFix 5
      eventMem instMem factorsFix (1 / 10000) specsFix rfl rfl rfl rfl
      (by
        intro m hm
        have hmm : m = mMem := by simpa [instMem] using hm
        subst hmm
        exact ⟨"error memory is not yet being calculated", rfl⟩)⟩

end calculator

namespace gcp

/-- C9: the claim that the scheduler's cancellation signal can never
deadlock fails on the code. `Cancel` sends on the **unbuffered** `done`
channel, and the loop receives `done` only when it is parked at its
`select`; in the embedded interleaving semantics, from the reachable state
in which a collection pass is in flight (`inProcess`) and `Cancel` is
blocked in its send (`sendPending`), the only enabled step is the pass
completing — the cancellation cannot be observed while the pass is in
flight, so a pass that never returns blocks `Cancel` forever. -/
theorem cancel_unobservable_during_pass :
    ({ loop := .inProcess, cancel := .idle } : SchedState) ∈
      schedStep { loop := .atSelect, cancel := .idle } ∧
    ({ loop := .inProcess, cancel := .sendPending } : SchedState) ∈
      schedStep { loop := .inProcess, cancel := .idle } ∧
    schedStep { loop := .inProcess, cancel := .sendPending } =
      [{ loop := .atSelect, cancel := .sendPending }] := by
  decide

end gcp

end CloudCarbon
